import Mathlib

/-!
Shallow embedding of
`pkg/machineproviders/providers/openshift/machine/v1beta1/providerconfig/providerconfig.go`
from the cluster-control-plane-machine-set-operator repository, together with
theorems settling the claims about the provider-configuration layer.

Go's `(T, error)` returns are modelled as `Except GoError T` where the source
never returns both a non-nil value and a non-nil error at once; `error` values
built by `errors.New` / `fmt.Errorf("...%w...")` become the `GoError` inductive,
whose `wrap` constructor records one level of `%w` wrapping; Go `nil` interface
values become `none`.
-/

/-- Model of `configv1.PlatformType` (a Go string type from openshift/api). -/
abbrev PlatformType := String

/-- Model of `configv1.AWSPlatformType`. -/
def AWSPlatformType : PlatformType := "AWS"

/-- Model of `configv1.GCPPlatformType`, used only to build concrete non-AWS inputs. -/
def GCPPlatformType : PlatformType := "GCP"

/-- Go error values as the source builds them: `base` is `errors.New(msg)`, and
`wrap extra inner` is `fmt.Errorf` with a `%w` verb wrapping `inner`, where
`extra` records the additional text formatted alongside the wrapped error. -/
inductive GoError where
  | base (msg : String)
  | wrap (extra : String) (inner : GoError)
deriving DecidableEq

/-- Model of `errors.Is`: the target is the error itself or sits somewhere
down its `%w` wrapping chain. -/
def GoError.is : GoError → GoError → Bool
  | e, t =>
    decide (e = t) ||
      match e with
      | .wrap _ inner => inner.is t
      | .base _ => false

/-- Source line 31: `errMismatchedPlatformTypes = errors.New("mistmatched platform types")`
(the typo is the source's). -/
def errMismatchedPlatformTypes : GoError := .base "mistmatched platform types"

/-- Source line 35: `errUnsupportedPlatformType = errors.New("unsupported platform type")`. -/
def errUnsupportedPlatformType : GoError := .base "unsupported platform type"

/-- Carrier for a non-nil value of the external `failuredomain.FailureDomain`
interface (that package is outside this file's source): a platform tag plus a
placement coordinate, which is all the claims need to distinguish domains. -/
structure FailureDomainValue where
  platformType : PlatformType
  zone : String
deriving DecidableEq

/-- A Go variable of interface type `failuredomain.FailureDomain`: `none` is the
Go `nil` interface value, exactly what `providerConfig.ExtractFailureDomain` returns. -/
abbrev FailureDomain := Option FailureDomainValue

/-- Modelled from the spec: `AWSProviderConfig` is declared in another file of the
`providerconfig` package that is not part of the source here. Per the spec's AWS
section it is the typed AWS machine spec, carrying at least the placement fields
(availability zone and subnet). Only its zero value and equality matter to the claims. -/
structure AWSProviderConfig where
  availabilityZone : String
  subnet : String
deriving DecidableEq

/-- The Go zero value of `AWSProviderConfig` (all fields empty). -/
def AWSProviderConfig.zero : AWSProviderConfig := { availabilityZone := "", subnet := "" }

/-- Model of `machinev1.OpenShiftMachineV1Beta1MachineTemplate` restricted to what
the source file reads: the structured failure-domain platform annotation, the
discriminator kind inside the raw provider spec, and the raw provider-spec payload
`tmpl.Spec.ProviderSpec.Value` (a nilable raw extension, its bytes as naturals). -/
structure OpenShiftMachineV1Beta1MachineTemplate where
  failureDomainsPlatform : Option PlatformType
  providerSpecKind : Option String
  providerSpecValue : Option (List Nat)
deriving DecidableEq

/-- Source lines 78-81: the struct `providerConfig`, the implementation of the
`ProviderConfig` interface present in this file. -/
structure providerConfig where
  platformType : PlatformType
  aws : AWSProviderConfig
deriving DecidableEq

/-- Source lines 86-88: `func (p providerConfig) InjectFailureDomain(failuredomain.FailureDomain)
(ProviderConfig, error) { return p, nil }` — the failure-domain argument is ignored. -/
def providerConfig.InjectFailureDomain (p : providerConfig) (_fd : FailureDomain) :
    Except GoError providerConfig :=
  .ok p

/-- Source lines 91-93: `func (p providerConfig) ExtractFailureDomain() failuredomain.FailureDomain
{ return nil }`. -/
def providerConfig.ExtractFailureDomain (_p : providerConfig) : FailureDomain :=
  none

/-- Source lines 96-98: `func (p providerConfig) Equal(ProviderConfig) (bool, error)
{ return false, nil }` — the argument is ignored. It is typed here at the sole
implementation present in the source. -/
def providerConfig.Equal (_p : providerConfig) (_other : providerConfig) :
    Except GoError Bool :=
  .ok false

/-- Source lines 101-103: `func (p providerConfig) RawConfig() ([]byte, error)
{ return []byte{}, nil }`. -/
def providerConfig.RawConfig (_p : providerConfig) : Except GoError (List Nat) :=
  .ok []

/-- Source lines 106-108: `func (p providerConfig) Type() configv1.PlatformType
{ return p.platformType }`. Named `Typ` because `Type` is reserved in Lean. -/
def providerConfig.Typ (p : providerConfig) : PlatformType :=
  p.platformType

/-- Source lines 111-113: `func (p providerConfig) AWS() AWSProviderConfig
{ return p.aws }`. -/
def providerConfig.AWS (p : providerConfig) : AWSProviderConfig :=
  p.aws

/-- Source lines 119-121: `func getPlatformType(tmpl ...) (configv1.PlatformType, error)
{ return "", nil }` — the template is never inspected. -/
def getPlatformType (_tmpl : OpenShiftMachineV1Beta1MachineTemplate) :
    PlatformType × Option GoError :=
  ("", none)

/-- Modelled from the spec: `newAWSProviderConfig` is defined in another file of the
`providerconfig` package that is not part of the source here. Per the spec it parses
the raw AWS provider spec into a typed config, failing when the payload is absent or
unparseable. It is called only on the (unreachable) AWS branch of `NewProviderConfig`. -/
def newAWSProviderConfig (raw : Option (List Nat)) : Except GoError providerConfig :=
  match raw with
  | none => .error (.base "providerSpec value is nil")
  | some _ => .ok { platformType := AWSPlatformType, aws := AWSProviderConfig.zero }

/-- Source lines 63-75: `NewProviderConfig` calls `getPlatformType`, wraps any error
it returns as `could not determine platform type: %w`, then switches on the platform
type: the `AWSPlatformType` case calls `newAWSProviderConfig(tmpl.Spec.ProviderSpec.Value)`,
and the default case returns `fmt.Errorf("%w: %s", errUnsupportedPlatformType, platformType)`. -/
def NewProviderConfig (tmpl : OpenShiftMachineV1Beta1MachineTemplate) :
    Except GoError providerConfig :=
  match getPlatformType tmpl with
  | (_, some err) => .error (.wrap "could not determine platform type" err)
  | (platformType, none) =>
    if platformType = AWSPlatformType then
      newAWSProviderConfig tmpl.providerSpecValue
    else
      .error (.wrap platformType errUnsupportedPlatformType)

/-- A Go method call `p.InjectFailureDomain(fd)` with the receiver state threaded
explicitly: the method has a value receiver (`p providerConfig`, source line 86), so
the caller's variable after the call is the same value it held before. The result
pairs the method's return values with the receiver as the caller sees it afterwards. -/
def providerConfig.InjectFailureDomainCall (p : providerConfig) (fd : FailureDomain) :
    (Except GoError providerConfig) × providerConfig :=
  (p.InjectFailureDomain fd, p)

/-- Concrete AWS spec used as an input below. -/
def awsSample : AWSProviderConfig := { availabilityZone := "us-east-1a", subnet := "subnet-123" }

/-- Concrete AWS-typed provider config. -/
def pAWS : providerConfig := { platformType := AWSPlatformType, aws := awsSample }

/-- Concrete GCP-typed provider config with the zero AWS field. -/
def pGCP : providerConfig := { platformType := GCPPlatformType, aws := AWSProviderConfig.zero }

/-- Concrete GCP-typed provider config whose stored AWS field is not zero. -/
def pGCPWithAWS : providerConfig := { platformType := GCPPlatformType, aws := awsSample }

/-- Concrete non-nil AWS failure domain. -/
def fdAWS : FailureDomain := some { platformType := AWSPlatformType, zone := "us-east-1a" }

/-- Concrete non-nil GCP failure domain. -/
def fdGCP : FailureDomain := some { platformType := GCPPlatformType, zone := "europe-west1-b" }

/-- Concrete machine template annotated as AWS with a present provider-spec payload. -/
def tmplAWS : OpenShiftMachineV1Beta1MachineTemplate :=
  { failureDomainsPlatform := some AWSPlatformType
    providerSpecKind := some "AWSMachineProviderConfig"
    providerSpecValue := some [123] }

/-- C1: the claim fails on the code. At the concrete AWS provider config `pAWS`
and the matching non-nil AWS failure domain `fdAWS`, `InjectFailureDomain` returns
the receiver unchanged and `ExtractFailureDomain` on that result returns the Go
`nil` interface, which differs from `fdAWS`: extraction is not a left inverse of
injection. -/
theorem C1_inject_extract_not_left_inverse :
    pAWS.InjectFailureDomain fdAWS = .ok pAWS ∧
    pAWS.ExtractFailureDomain = none ∧
    fdAWS ≠ none := by
  refine ⟨rfl, rfl, ?_⟩
  simp [fdAWS]

/-- C2: the claim fails on the code. `pAWS` and `pGCP` have different platform
types, yet `Equal` returns the boolean result `false` with a nil error, and
`InjectFailureDomain` of a GCP-tagged failure domain into the AWS config succeeds
returning the receiver: `errMismatchedPlatformTypes` is never produced. -/
theorem C2_mismatched_platforms_not_rejected :
    pAWS.platformType ≠ pGCP.platformType ∧
    pAWS.Equal pGCP = .ok false ∧
    pAWS.InjectFailureDomain fdGCP = .ok pAWS := by
  refine ⟨?_, rfl, rfl⟩
  simp [pAWS, pGCP, AWSPlatformType, GCPPlatformType]

/-- C3: the claim fails on the code. `tmplAWS` carries the supported AWS
discriminator, yet `NewProviderConfig` returns the error wrapping
`errUnsupportedPlatformType` (with the empty platform string produced by the stub
`getPlatformType`) instead of a provider config of type AWS. -/
theorem C3_supported_discriminator_still_rejected :
    tmplAWS.failureDomainsPlatform = some AWSPlatformType ∧
    NewProviderConfig tmplAWS = .error (.wrap "" errUnsupportedPlatformType) := by
  exact ⟨rfl, rfl⟩

/-- C4: the claim fails on the code. `RawConfig` on `pAWS` returns the empty byte
slice (not a serialization of the config), and `Equal` returns `false` even when
comparing `pAWS` with itself, so no re-parsed config can ever be `Equal` to the
original: the round-trip property is violated. -/
theorem C4_rawconfig_roundtrip_fails :
    pAWS.RawConfig = .ok [] ∧ pAWS.Equal pAWS = .ok false := by
  exact ⟨rfl, rfl⟩

/-- C5: the claim fails on the code. For every machine template, well-formed or
not, `NewProviderConfig` returns an error whose wrapping chain contains
`errUnsupportedPlatformType`; no distinct malformed-template error ever occurs, so
the two failure modes the claim describes are not distinguished. -/
theorem C5_error_modes_conflated (tmpl : OpenShiftMachineV1Beta1MachineTemplate) :
    ∃ e, NewProviderConfig tmpl = .error e ∧ e.is errUnsupportedPlatformType = true := by
  exact ⟨.wrap "" errUnsupportedPlatformType, rfl, by decide⟩

/-- C6: confirmed. `InjectFailureDomain` has a value receiver, so a call never
mutates the caller's provider config: the receiver after the call is the same
value, and `ExtractFailureDomain` on it returns exactly what it returned before
the call. -/
theorem C6_inject_does_not_mutate_receiver (p : providerConfig) (fd : FailureDomain) :
    (p.InjectFailureDomainCall fd).2 = p ∧
    ((p.InjectFailureDomainCall fd).2).ExtractFailureDomain = p.ExtractFailureDomain := by
  exact ⟨rfl, rfl⟩

/-- C7 counterexample: the claim as stated is false. The provider config
`pGCPWithAWS` has platform type GCP (not AWS), yet its `AWS()` accessor returns
the stored non-zero `AWSProviderConfig` value, not a zero/empty one. -/
theorem C7_nonzero_aws_on_non_aws_platform :
    pGCPWithAWS.Typ ≠ AWSPlatformType ∧ pGCPWithAWS.AWS ≠ AWSProviderConfig.zero := by
  constructor
  · simp [pGCPWithAWS, providerConfig.Typ, GCPPlatformType, AWSPlatformType]
  · simp [pGCPWithAWS, providerConfig.AWS, awsSample, AWSProviderConfig.zero]

/-- C7 amended: for every provider config whose platform type is not AWS, the
`AWS()` accessor does not fail and returns the stored `aws` field unchanged; it
never inspects the platform type, so the result is zero/empty exactly when the
stored field is. -/
theorem C7_aws_accessor_returns_stored_field (p : providerConfig)
    (h : p.Typ ≠ AWSPlatformType) :
    p.AWS = p.aws ∧ (p.AWS = AWSProviderConfig.zero ↔ p.aws = AWSProviderConfig.zero) := by
  exact ⟨rfl, Iff.rfl⟩

/-- Witness for C7: the amended theorem applied at the concrete GCP config. -/
theorem C7_aws_accessor_witness :
    pGCP.Typ ≠ AWSPlatformType ∧ pGCP.AWS = pGCP.aws :=
  ⟨by decide, (C7_aws_accessor_returns_stored_field pGCP (by decide)).1⟩

/-- C8: confirmed. `getPlatformType` returns the empty platform type with a nil
error on every input, so `NewProviderConfig` always falls through to the default
switch case and returns the error wrapping `errUnsupportedPlatformType`: there is
no input on which it succeeds. -/
theorem C8_new_provider_config_never_succeeds (tmpl : OpenShiftMachineV1Beta1MachineTemplate) :
    getPlatformType tmpl = ("", none) ∧
    NewProviderConfig tmpl = .error (.wrap "" errUnsupportedPlatformType) := by
  exact ⟨rfl, rfl⟩

/-- C9: confirmed. `Equal` returns `(false, nil)` for every pair of provider
configs, including a config compared with itself, so it is not reflexive. -/
theorem C9_equal_always_false (p q : providerConfig) :
    p.Equal q = .ok false ∧ p.Equal p = .ok false := by
  exact ⟨rfl, rfl⟩

/-- C10: confirmed. `InjectFailureDomain` returns its receiver unchanged together
with a nil error for every failure domain, matching or not. -/
theorem C10_inject_is_identity (p : providerConfig) (fd : FailureDomain) :
    p.InjectFailureDomain fd = .ok p := by
  exact rfl
